import Mathlib

/-!
Shallow embedding of the `hetzner` Go package (`hetzner.go`), a client
library for the Hetzner DNS HTTP API.  Each client operation is split,
exactly along the lines of the Go code, into

* a pure request-construction function (`...Request`) building the HTTP
  request (method, URL, headers in the order the Go code sets them, and
  the optional JSON body produced by `json.Marshal`), and
* a pure response-handling function (`...Response` / `...Result`)
  mapping the transport outcome to the value or error the Go function
  returns.

Go errors are modelled as the exact strings `fmt.Errorf` / `errors.New`
produce.  The HTTP transport (`http.Client.Do`) and the JSON decoder
(`encoding/json`, external to the repository) are passed in as oracles
(`Transport`, `Decoders`); every operation records the list of requests
it hands to the transport.
-/

namespace HetznerDNS

/-- Client configuration (Go struct `Hetzner`): API key and base-URL override. -/
structure Hetzner where
  APIKey : String
  APIBaseUrl : String
  deriving DecidableEq, Repr

/-- A DNS zone in Hetzner's API response (Go struct `Zone`). -/
structure Zone where
  ID : String
  Name : String
  deriving DecidableEq, Repr

/-- DNS record in Hetzner's API response (Go struct `RecordResponse`).
The Go field `Type` is rendered `type` because `Type` is reserved in Lean. -/
structure RecordResponse where
  ID : String
  type : String
  Name : String
  Value : String
  ZoneID : String
  TTL : Int
  Created : String
  Modified : String
  deriving DecidableEq, Repr

/-- Write model for create/update requests (Go struct `RecordUpdateRequest`). -/
structure RecordUpdateRequest where
  ID : String
  ZoneID : String
  type : String
  Name : String
  Value : String
  deriving DecidableEq, Repr

/-- Envelope for bulk record requests (Go struct `BulkRecordUpdateRequest`). -/
structure BulkRecordUpdateRequest where
  Records : List RecordUpdateRequest
  deriving DecidableEq, Repr

/-- A single primary server (Go struct `PrimaryServer`).  The Go
`time.Time` fields are modelled by their RFC 3339 JSON string form. -/
structure PrimaryServer where
  Port : Int
  ID : String
  Created : String
  Modified : String
  ZoneID : String
  Address : String
  deriving DecidableEq, Repr

/-- Envelope holding the list of primary servers (Go struct `PrimaryServers`). -/
structure PrimaryServers where
  PrimaryServers : List PrimaryServer
  deriving DecidableEq, Repr

/-- An HTTP request as the Go code assembles it: method, URL, the headers in
the order the code sets them, and the optional body. -/
structure HttpRequest where
  method : String
  url : String
  headers : List (String × String)
  body : Option String
  deriving DecidableEq, Repr

/-- An HTTP response as seen by the Go code: status code and body text. -/
structure HttpResponse where
  statusCode : Nat
  body : String
  deriving DecidableEq, Repr

/-- Outcome of one `http.Client.Do` call: transport failure or a response. -/
inductive TransportResult where
  | fail (msg : String)
  | ok (resp : HttpResponse)
  deriving DecidableEq, Repr

/-- The HTTP transport oracle (`http.Client.Do`), external to the library. -/
abbrev Transport := HttpRequest → TransportResult

/-- Oracle for `encoding/json` decoding of the response envelopes used by the
library (Go stdlib, external to the repository): one decoder per envelope
shape the code decodes into. -/
structure Decoders where
  zones : String → Except String (List Zone)
  records : String → Except String (List RecordResponse)
  primaryServers : String → Except String PrimaryServers
  primaryServer : String → Except String PrimaryServer

/-- Lower-case hexadecimal digit, as Go's JSON encoder emits them. -/
def hexDigit (n : Nat) : Char :=
  if n < 10 then Char.ofNat (48 + n) else Char.ofNat (87 + n)

/-- Escaping of one character inside a JSON string, following Go's
`encoding/json` encoder (HTML escaping on, as under `json.Marshal`). -/
def jsonEscapeChar (c : Char) : String :=
  if c = '"' then "\\\""
  else if c = '\\' then "\\\\"
  else if c = '\n' then "\\n"
  else if c = '\r' then "\\r"
  else if c = '\t' then "\\t"
  else if c = '<' then "\\u003c"
  else if c = '>' then "\\u003e"
  else if c = '&' then "\\u0026"
  else if c.toNat < 32 then
    "\\u00" ++ String.mk [hexDigit (c.toNat / 16), hexDigit (c.toNat % 16)]
  else if c.toNat = 8232 then "\\u2028"
  else if c.toNat = 8233 then "\\u2029"
  else String.mk [c]

/-- A JSON string literal for `s`, as Go's `encoding/json` renders it. -/
def jsonString (s : String) : String :=
  "\"" ++ String.join (s.data.map jsonEscapeChar) ++ "\""

/-- `json.Marshal` of a `RecordUpdateRequest` (fields in declaration order,
snake_case tags as in the Go struct). -/
def encodeRecordUpdateRequest (r : RecordUpdateRequest) : String :=
  "\x7b\"id\":" ++ jsonString r.ID ++
  ",\"zone_id\":" ++ jsonString r.ZoneID ++
  ",\"type\":" ++ jsonString r.type ++
  ",\"name\":" ++ jsonString r.Name ++
  ",\"value\":" ++ jsonString r.Value ++ "\x7d"

/-- `json.Marshal` of a `BulkRecordUpdateRequest`. -/
def encodeBulkRecordUpdateRequest (b : BulkRecordUpdateRequest) : String :=
  "\x7b\"records\":[" ++
    String.intercalate "," (b.Records.map encodeRecordUpdateRequest) ++ "]\x7d"

/-- `json.Marshal` of a `PrimaryServer` (fields in declaration order). -/
def encodePrimaryServer (p : PrimaryServer) : String :=
  "\x7b\"port\":" ++ toString p.Port ++
  ",\"id\":" ++ jsonString p.ID ++
  ",\"created\":" ++ jsonString p.Created ++
  ",\"modified\":" ++ jsonString p.Modified ++
  ",\"zone_id\":" ++ jsonString p.ZoneID ++
  ",\"address\":" ++ jsonString p.Address ++ "\x7d"

/-- JSON form of Go's zero `time.Time`, marshalled for a fresh `PrimaryServer`. -/
def zeroTime : String := "0001-01-01T00:00:00Z"

/-- Lower-casing of an ASCII letter, the case folding relevant here. -/
def asciiLower (c : Char) : Char :=
  if 'A' ≤ c ∧ c ≤ 'Z' then Char.ofNat (c.toNat + 32) else c

/-- Case-insensitive string comparison; models Go's `strings.EqualFold`
(restricted to ASCII case folding, with which it agrees on ASCII strings). -/
def eqFold (s t : String) : Bool :=
  s.data.map asciiLower == t.data.map asciiLower

/-- Go method `apiBaseURL`: the configured base URL, or the default when the
configured one is empty. -/
def apiBaseURL (h : Hetzner) : String :=
  if h.APIBaseUrl.length > 0 then h.APIBaseUrl
  else "https://dns.hetzner.com/api/v1"

/-- Go method `createApiErrorMessage`: the error for a non-success response,
carrying the status code and the raw body text. -/
def createApiErrorMessage (resp : HttpResponse) : String :=
  "API request failed with status " ++ toString resp.statusCode ++ ": " ++ resp.body

/-! Request constructors, one per Go client method, mirroring the URL
`fmt.Sprintf`, the header `Set`/`Add` calls in order, and the marshalled
body of the corresponding Go function. -/

/-- Request of `FindAllZones`: GET `{base}/zones`. -/
def findAllZonesRequest (h : Hetzner) : HttpRequest :=
  ⟨"GET", apiBaseURL h ++ "/zones", [("Auth-API-Token", h.APIKey)], none⟩

/-- Request of `FindAllRecordsForZone`: GET `{base}/records?zone_id={zoneID}`. -/
def findAllRecordsForZoneRequest (h : Hetzner) (zoneID : String) : HttpRequest :=
  ⟨"GET", apiBaseURL h ++ "/records?zone_id=" ++ zoneID,
   [("Auth-API-Token", h.APIKey)], none⟩

/-- Request of `UpdateRecord`: PUT `{base}/records/{recordID}` with the full
write model as body. -/
def updateRecordRequest (h : Hetzner)
    (zoneID recordID recordType recordName recordValue : String) : HttpRequest :=
  ⟨"PUT", apiBaseURL h ++ "/records/" ++ recordID,
   [("Content-Type", "application/json"), ("Auth-API-Token", h.APIKey)],
   some (encodeRecordUpdateRequest ⟨recordID, zoneID, recordType, recordName, recordValue⟩)⟩

/-- Request of `CreateRecord`: POST `{base}/records` with the write model
(id left at its zero value) as body. -/
def createRecordRequest (h : Hetzner)
    (zoneID recordType recordName recordValue : String) : HttpRequest :=
  ⟨"POST", apiBaseURL h ++ "/records",
   [("Content-Type", "application/json"), ("Auth-API-Token", h.APIKey)],
   some (encodeRecordUpdateRequest ⟨"", zoneID, recordType, recordName, recordValue⟩)⟩

/-- Request of `BulkCreateRecord`: POST `{base}/records/bulk`.  The Go
function's `zoneID` parameter does not occur in the request. -/
def bulkCreateRecordRequest (h : Hetzner) (records : List RecordUpdateRequest) : HttpRequest :=
  ⟨"POST", apiBaseURL h ++ "/records/bulk",
   [("Content-Type", "application/json"), ("Auth-API-Token", h.APIKey)],
   some (encodeBulkRecordUpdateRequest ⟨records⟩)⟩

/-- Request of `BulkUpdateRecord`: PUT `{base}/records/bulk`.  The Go
function's `zoneID` parameter does not occur in the request. -/
def bulkUpdateRecordRequest (h : Hetzner) (records : List RecordUpdateRequest) : HttpRequest :=
  ⟨"PUT", apiBaseURL h ++ "/records/bulk",
   [("Content-Type", "application/json"), ("Auth-API-Token", h.APIKey)],
   some (encodeBulkRecordUpdateRequest ⟨records⟩)⟩

/-- Request of `DeleteRecord`: DELETE `{base}/records/{recordID}`. -/
def deleteRecordRequest (h : Hetzner) (recordID : String) : HttpRequest :=
  ⟨"DELETE", apiBaseURL h ++ "/records/" ++ recordID,
   [("Content-Type", "application/json"), ("Auth-API-Token", h.APIKey)], none⟩

/-- Request of `ExportZoneFile`: GET `{base}/zones/{zoneID}/export`. -/
def exportZoneFileRequest (h : Hetzner) (zoneID : String) : HttpRequest :=
  ⟨"GET", apiBaseURL h ++ "/zones/" ++ zoneID ++ "/export",
   [("Content-Type", "application/x-www-form-urlencoded; charset=utf-8"),
    ("Auth-API-Token", h.APIKey)], none⟩

/-- Request of `ValidateZoneFile`: POST `{base}/zones/file/validate` with the
zone-file contents (the result of the `os.ReadFile` call) as body. -/
def validateZoneFileRequest (h : Hetzner) (fileContents : String) : HttpRequest :=
  ⟨"POST", apiBaseURL h ++ "/zones/file/validate",
   [("Content-Type", "text/plain"), ("Auth-API-Token", h.APIKey)],
   some fileContents⟩

/-- Request of `ImportZoneFile`: POST `{base}/zones/{zoneID}/import` with the
zone-file contents as body. -/
def importZoneFileRequest (h : Hetzner) (zoneID fileContents : String) : HttpRequest :=
  ⟨"POST", apiBaseURL h ++ "/zones/" ++ zoneID ++ "/import",
   [("Content-Type", "text/plain"), ("Auth-API-Token", h.APIKey)],
   some fileContents⟩

/-- Request of `FindAllPrimaryServers`: GET `{base}/primary_servers`. -/
def findAllPrimaryServersRequest (h : Hetzner) : HttpRequest :=
  ⟨"GET", apiBaseURL h ++ "/primary_servers", [("Auth-API-Token", h.APIKey)], none⟩

/-- Request of `CreatePrimaryServer`: POST `{base}/primary_servers`. -/
def createPrimaryServerRequest (h : Hetzner)
    (zoneID address : String) (port : Int) : HttpRequest :=
  ⟨"POST", apiBaseURL h ++ "/primary_servers",
   [("Content-Type", "application/json"), ("Auth-API-Token", h.APIKey)],
   some (encodePrimaryServer ⟨port, "", zeroTime, zeroTime, zoneID, address⟩)⟩

/-- Request of `UpdatePrimaryServer`: PUT `{base}/primary_servers`. -/
def updatePrimaryServerRequest (h : Hetzner)
    (zoneID id address : String) (port : Int) : HttpRequest :=
  ⟨"PUT", apiBaseURL h ++ "/primary_servers",
   [("Content-Type", "application/json"), ("Auth-API-Token", h.APIKey)],
   some (encodePrimaryServer ⟨port, id, zeroTime, zeroTime, zoneID, address⟩)⟩

/-- Request of `GetPrimaryServer`: GET `{base}/primary_servers/{id}`. -/
def getPrimaryServerRequest (h : Hetzner) (id : String) : HttpRequest :=
  ⟨"GET", apiBaseURL h ++ "/primary_servers/" ++ id,
   [("Content-Type", "application/json"), ("Auth-API-Token", h.APIKey)], none⟩

/-- Request of `DeletePrimaryServer`: DELETE `{base}/primary_servers/{id}`. -/
def deletePrimaryServerRequest (h : Hetzner) (id : String) : HttpRequest :=
  ⟨"DELETE", apiBaseURL h ++ "/primary_servers/" ++ id,
   [("Content-Type", "application/json"), ("Auth-API-Token", h.APIKey)], none⟩

/-! Response handlers, one per Go client method, mirroring each function's
error wrapping, status-code check and decoding step. -/

/-- Response handling of `FindAllZones`: non-200 yields the classified API
error; otherwise the decoded `zones` envelope is returned. -/
def findAllZonesResponse (dec : Decoders) : TransportResult → Except String (List Zone)
  | .fail msg => .error ("failed to execute request: " ++ msg)
  | .ok resp =>
    if resp.statusCode ≠ 200 then .error (createApiErrorMessage resp)
    else
      match dec.zones resp.body with
      | .error msg => .error ("failed to decode response body: " ++ msg)
      | .ok zones => .ok zones

/-- Response handling of `FindAllRecordsForZone`. -/
def findAllRecordsForZoneResponse (dec : Decoders) :
    TransportResult → Except String (List RecordResponse)
  | .fail msg => .error ("failed to execute request: " ++ msg)
  | .ok resp =>
    if resp.statusCode ≠ 200 then .error (createApiErrorMessage resp)
    else
      match dec.records resp.body with
      | .error msg => .error ("failed to decode response body: " ++ msg)
      | .ok records => .ok records

/-- Response handling of `UpdateRecord`: success is exactly HTTP 200. -/
def updateRecordResponse : TransportResult → Except String Unit
  | .fail msg => .error ("failed to execute request: " ++ msg)
  | .ok resp =>
    if resp.statusCode ≠ 200 then .error (createApiErrorMessage resp) else .ok ()

/-- Response handling of `CreateRecord`: success is exactly HTTP 201
(`http.StatusCreated`). -/
def createRecordResponse : TransportResult → Except String Unit
  | .fail msg => .error ("failed to execute request: " ++ msg)
  | .ok resp =>
    if resp.statusCode ≠ 201 then .error (createApiErrorMessage resp) else .ok ()

/-- Response handling of `BulkCreateRecord`: success is HTTP 200. -/
def bulkCreateRecordResponse : TransportResult → Except String Unit
  | .fail msg => .error ("failed to execute request: " ++ msg)
  | .ok resp =>
    if resp.statusCode ≠ 200 then .error (createApiErrorMessage resp) else .ok ()

/-- Response handling of `BulkUpdateRecord`: success is HTTP 200. -/
def bulkUpdateRecordResponse : TransportResult → Except String Unit
  | .fail msg => .error ("failed to execute request: " ++ msg)
  | .ok resp =>
    if resp.statusCode ≠ 200 then .error (createApiErrorMessage resp) else .ok ()

/-- Response handling of `DeleteRecord`.  Unlike the other operations this
does not call `createApiErrorMessage`: the error carries the status code
only, the response body is dropped. -/
def deleteRecordResponse : TransportResult → Except String Unit
  | .fail msg => .error ("failed to execute request: " ++ msg)
  | .ok resp =>
    if resp.statusCode ≠ 200 then
      .error ("API request failed with status " ++ toString resp.statusCode)
    else .ok ()

/-- Response handling of `ExportZoneFile`: like `DeleteRecord` the error
carries only the status code; on success the raw body is returned. -/
def exportZoneFileResponse : TransportResult → Except String String
  | .fail msg => .error ("failed to execute request: " ++ msg)
  | .ok resp =>
    if resp.statusCode ≠ 200 then
      .error ("API request failed with status " ++ toString resp.statusCode)
    else .ok resp.body

/-- Response handling of `ValidateZoneFile`: success is HTTP 200. -/
def validateZoneFileResponse : TransportResult → Except String Unit
  | .fail msg => .error ("failed to execute request: " ++ msg)
  | .ok resp =>
    if resp.statusCode ≠ 200 then .error (createApiErrorMessage resp) else .ok ()

/-- Response handling of `ImportZoneFile`: success is HTTP 200. -/
def importZoneFileResponse : TransportResult → Except String Unit
  | .fail msg => .error ("failed to execute request: " ++ msg)
  | .ok resp =>
    if resp.statusCode ≠ 200 then .error (createApiErrorMessage resp) else .ok ()

/-- Response handling of `FindAllPrimaryServers`. -/
def findAllPrimaryServersResponse (dec : Decoders) :
    TransportResult → Except String PrimaryServers
  | .fail msg => .error ("failed to execute request: " ++ msg)
  | .ok resp =>
    if resp.statusCode ≠ 200 then .error (createApiErrorMessage resp)
    else
      match dec.primaryServers resp.body with
      | .error msg => .error ("failed to decode response body: " ++ msg)
      | .ok ps => .ok ps

/-- Response handling of `CreatePrimaryServer`: success is HTTP 200. -/
def createPrimaryServerResponse : TransportResult → Except String Unit
  | .fail msg => .error ("failed to execute request: " ++ msg)
  | .ok resp =>
    if resp.statusCode ≠ 200 then .error (createApiErrorMessage resp) else .ok ()

/-- Response handling of `UpdatePrimaryServer`: success is HTTP 200. -/
def updatePrimaryServerResponse : TransportResult → Except String Unit
  | .fail msg => .error ("failed to execute request: " ++ msg)
  | .ok resp =>
    if resp.statusCode ≠ 200 then .error (createApiErrorMessage resp) else .ok ()

/-- Response handling of `GetPrimaryServer`. -/
def getPrimaryServerResponse (dec : Decoders) :
    TransportResult → Except String PrimaryServer
  | .fail msg => .error ("failed to execute request: " ++ msg)
  | .ok resp =>
    if resp.statusCode ≠ 200 then .error (createApiErrorMessage resp)
    else
      match dec.primaryServer resp.body with
      | .error msg => .error ("failed to decode response body: " ++ msg)
      | .ok p => .ok p

/-- Response handling of `DeletePrimaryServer`. -/
def deletePrimaryServerResponse (dec : Decoders) :
    TransportResult → Except String PrimaryServer
  | .fail msg => .error ("failed to execute request: " ++ msg)
  | .ok resp =>
    if resp.statusCode ≠ 200 then .error (createApiErrorMessage resp)
    else
      match dec.primaryServer resp.body with
      | .error msg => .error ("failed to decode response body: " ++ msg)
      | .ok p => .ok p

/-! The client operations.  Each returns the Go function's result (error
strings exactly as `fmt.Errorf` produces them) paired with the list of HTTP
requests it handed to the transport, in order. -/

/-- Go method `FindAllZones`. -/
def FindAllZones (h : Hetzner) (tr : Transport) (dec : Decoders) :
    Except String (List Zone) × List HttpRequest :=
  (findAllZonesResponse dec (tr (findAllZonesRequest h)), [findAllZonesRequest h])

/-- The scan of `FindZoneID` over the zone list: first zone whose name
matches case-insensitively, else the client-side not-found error. -/
def findZoneIDResult (zonesRes : Except String (List Zone)) (domainName : String) :
    Except String String :=
  match zonesRes with
  | .error e => .error e
  | .ok zones =>
    match zones.find? (fun zone => eqFold zone.Name domainName) with
    | some zone => .ok zone.ID
    | none => .error ("zone for domain " ++ domainName ++ " not found")

/-- Go method `FindZoneID`: calls `FindAllZones`, then scans. -/
def FindZoneID (h : Hetzner) (tr : Transport) (dec : Decoders) (domainName : String) :
    Except String String × List HttpRequest :=
  (findZoneIDResult (FindAllZones h tr dec).1 domainName, (FindAllZones h tr dec).2)

/-- Go method `FindAllRecordsForZone`. -/
def FindAllRecordsForZone (h : Hetzner) (tr : Transport) (dec : Decoders)
    (zoneID : String) : Except String (List RecordResponse) × List HttpRequest :=
  (findAllRecordsForZoneResponse dec (tr (findAllRecordsForZoneRequest h zoneID)),
   [findAllRecordsForZoneRequest h zoneID])

/-- The filtering step of `FindRecordsByName`: keep the records whose name
matches case-insensitively, in order. -/
def findRecordsByNameResult (recordsRes : Except String (List RecordResponse))
    (recordName : String) : Except String (List RecordResponse) :=
  match recordsRes with
  | .error e => .error e
  | .ok records => .ok (records.filter (fun record => eqFold record.Name recordName))

/-- Go method `FindRecordsByName`: calls `FindAllRecordsForZone`, then filters. -/
def FindRecordsByName (h : Hetzner) (tr : Transport) (dec : Decoders)
    (zoneID recordName : String) :
    Except String (List RecordResponse) × List HttpRequest :=
  (findRecordsByNameResult (FindAllRecordsForZone h tr dec zoneID).1 recordName,
   (FindAllRecordsForZone h tr dec zoneID).2)

/-- The scan of `FindRecordById`: first record whose id is (exactly) the
queried id, else the client-side `errors.New` not-found error. -/
def findRecordByIdResult (recordsRes : Except String (List RecordResponse))
    (recordId : String) : Except String RecordResponse :=
  match recordsRes with
  | .error e => .error e
  | .ok records =>
    match records.find? (fun record => record.ID == recordId) with
    | some record => .ok record
    | none => .error "record not found"

/-- Go method `FindRecordById`: calls `FindAllRecordsForZone`, then scans. -/
def FindRecordById (h : Hetzner) (tr : Transport) (dec : Decoders)
    (zoneID recordId : String) : Except String RecordResponse × List HttpRequest :=
  (findRecordByIdResult (FindAllRecordsForZone h tr dec zoneID).1 recordId,
   (FindAllRecordsForZone h tr dec zoneID).2)

/-- Go method `UpdateRecord`. -/
def UpdateRecord (h : Hetzner) (tr : Transport)
    (zoneID recordID recordType recordName recordValue : String) :
    Except String Unit × List HttpRequest :=
  (updateRecordResponse (tr (updateRecordRequest h zoneID recordID recordType recordName recordValue)),
   [updateRecordRequest h zoneID recordID recordType recordName recordValue])

/-- Go method `CreateRecord`. -/
def CreateRecord (h : Hetzner) (tr : Transport)
    (zoneID recordType recordName recordValue : String) :
    Except String Unit × List HttpRequest :=
  (createRecordResponse (tr (createRecordRequest h zoneID recordType recordName recordValue)),
   [createRecordRequest h zoneID recordType recordName recordValue])

/-- Go method `BulkCreateRecord`.  Its `zoneID` parameter is unused, exactly
as in the source. -/
def BulkCreateRecord (h : Hetzner) (tr : Transport) (zoneID : String)
    (records : List RecordUpdateRequest) : Except String Unit × List HttpRequest :=
  (bulkCreateRecordResponse (tr (bulkCreateRecordRequest h records)),
   [bulkCreateRecordRequest h records])

/-- Go method `BulkUpdateRecord`.  Its `zoneID` parameter is unused, exactly
as in the source. -/
def BulkUpdateRecord (h : Hetzner) (tr : Transport) (zoneID : String)
    (records : List RecordUpdateRequest) : Except String Unit × List HttpRequest :=
  (bulkUpdateRecordResponse (tr (bulkUpdateRecordRequest h records)),
   [bulkUpdateRecordRequest h records])

/-- Go method `CreateOrUpdateRecord`: query `FindRecordsByName`; propagate
its error unchanged; update the first match with the new value (keeping the
found record's type and name); otherwise create with the caller's data. -/
def CreateOrUpdateRecord (h : Hetzner) (tr : Transport) (dec : Decoders)
    (zoneID recordType recordName recordValue : String) :
    Except String Unit × List HttpRequest :=
  match FindRecordsByName h tr dec zoneID recordName with
  | (.error e, reqs) => (.error e, reqs)
  | (.ok [], reqs) =>
    (( CreateRecord h tr zoneID recordType recordName recordValue).1,
     reqs ++ (CreateRecord h tr zoneID recordType recordName recordValue).2)
  | (.ok (record :: _), reqs) =>
    ((UpdateRecord h tr zoneID record.ID record.type record.Name recordValue).1,
     reqs ++ (UpdateRecord h tr zoneID record.ID record.type record.Name recordValue).2)

/-- Go method `DeleteRecord`. -/
def DeleteRecord (h : Hetzner) (tr : Transport) (recordID : String) :
    Except String Unit × List HttpRequest :=
  (deleteRecordResponse (tr (deleteRecordRequest h recordID)),
   [deleteRecordRequest h recordID])

/-- Go method `ExportZoneFile`. -/
def ExportZoneFile (h : Hetzner) (tr : Transport) (zoneID : String) :
    Except String String × List HttpRequest :=
  (exportZoneFileResponse (tr (exportZoneFileRequest h zoneID)),
   [exportZoneFileRequest h zoneID])

/-- Go method `ValidateZoneFile`, after its successful `os.ReadFile` of the
zone file; `fileContents` is what the read produced. -/
def ValidateZoneFile (h : Hetzner) (tr : Transport) (fileContents : String) :
    Except String Unit × List HttpRequest :=
  (validateZoneFileResponse (tr (validateZoneFileRequest h fileContents)),
   [validateZoneFileRequest h fileContents])

/-- Go method `ImportZoneFile`, after its successful `os.ReadFile`. -/
def ImportZoneFile (h : Hetzner) (tr : Transport) (zoneID fileContents : String) :
    Except String Unit × List HttpRequest :=
  (importZoneFileResponse (tr (importZoneFileRequest h zoneID fileContents)),
   [importZoneFileRequest h zoneID fileContents])

/-- Go method `FindAllPrimaryServers`. -/
def FindAllPrimaryServers (h : Hetzner) (tr : Transport) (dec : Decoders) :
    Except String PrimaryServers × List HttpRequest :=
  (findAllPrimaryServersResponse dec (tr (findAllPrimaryServersRequest h)),
   [findAllPrimaryServersRequest h])

/-- Go method `CreatePrimaryServer`. -/
def CreatePrimaryServer (h : Hetzner) (tr : Transport)
    (zoneID address : String) (port : Int) : Except String Unit × List HttpRequest :=
  (createPrimaryServerResponse (tr (createPrimaryServerRequest h zoneID address port)),
   [createPrimaryServerRequest h zoneID address port])

/-- Go method `UpdatePrimaryServer`. -/
def UpdatePrimaryServer (h : Hetzner) (tr : Transport)
    (zoneID id address : String) (port : Int) : Except String Unit × List HttpRequest :=
  (updatePrimaryServerResponse (tr (updatePrimaryServerRequest h zoneID id address port)),
   [updatePrimaryServerRequest h zoneID id address port])

/-- Go method `GetPrimaryServer`. -/
def GetPrimaryServer (h : Hetzner) (tr : Transport) (dec : Decoders) (id : String) :
    Except String PrimaryServer × List HttpRequest :=
  (getPrimaryServerResponse dec (tr (getPrimaryServerRequest h id)),
   [getPrimaryServerRequest h id])

/-- Go method `DeletePrimaryServer`. -/
def DeletePrimaryServer (h : Hetzner) (tr : Transport) (dec : Decoders) (id : String) :
    Except String PrimaryServer × List HttpRequest :=
  (deletePrimaryServerResponse dec (tr (deletePrimaryServerRequest h id)),
   [deletePrimaryServerRequest h id])

/-- One constructor per request-issuing client operation, with the Go
method's parameters (for the zone-file operations, the file contents stand
in for the file path, as above). -/
inductive ClientOp where
  | findAllZones
  | findZoneID (domainName : String)
  | findAllRecordsForZone (zoneID : String)
  | findRecordsByName (zoneID recordName : String)
  | findRecordById (zoneID recordId : String)
  | updateRecord (zoneID recordID recordType recordName recordValue : String)
  | createRecord (zoneID recordType recordName recordValue : String)
  | bulkCreateRecord (zoneID : String) (records : List RecordUpdateRequest)
  | bulkUpdateRecord (zoneID : String) (records : List RecordUpdateRequest)
  | createOrUpdateRecord (zoneID recordType recordName recordValue : String)
  | deleteRecord (recordID : String)
  | exportZoneFile (zoneID : String)
  | validateZoneFile (fileContents : String)
  | importZoneFile (zoneID fileContents : String)
  | findAllPrimaryServers
  | createPrimaryServer (zoneID address : String) (port : Int)
  | updatePrimaryServer (zoneID id address : String) (port : Int)
  | getPrimaryServer (id : String)
  | deletePrimaryServer (id : String)
  deriving DecidableEq, Repr

/-- The successful result of a client operation, one shape per return type. -/
inductive OpResult where
  | done
  | str (s : String)
  | zones (zs : List Zone)
  | records (rs : List RecordResponse)
  | record (r : RecordResponse)
  | bytes (b : String)
  | pservers (ps : PrimaryServers)
  | pserver (p : PrimaryServer)
  deriving DecidableEq, Repr

/-- Run one client operation: its result (uniformly wrapped) together with
the requests it issued. -/
def runOp (h : Hetzner) (tr : Transport) (dec : Decoders) :
    ClientOp → Except String OpResult × List HttpRequest
  | .findAllZones =>
    ((FindAllZones h tr dec).1.map OpResult.zones, (FindAllZones h tr dec).2)
  | .findZoneID domainName =>
    ((FindZoneID h tr dec domainName).1.map OpResult.str,
     (FindZoneID h tr dec domainName).2)
  | .findAllRecordsForZone zoneID =>
    ((FindAllRecordsForZone h tr dec zoneID).1.map OpResult.records,
     (FindAllRecordsForZone h tr dec zoneID).2)
  | .findRecordsByName zoneID recordName =>
    ((FindRecordsByName h tr dec zoneID recordName).1.map OpResult.records,
     (FindRecordsByName h tr dec zoneID recordName).2)
  | .findRecordById zoneID recordId =>
    ((FindRecordById h tr dec zoneID recordId).1.map OpResult.record,
     (FindRecordById h tr dec zoneID recordId).2)
  | .updateRecord zoneID recordID recordType recordName recordValue =>
    ((UpdateRecord h tr zoneID recordID recordType recordName recordValue).1.map
        (fun _ => OpResult.done),
     (UpdateRecord h tr zoneID recordID recordType recordName recordValue).2)
  | .createRecord zoneID recordType recordName recordValue =>
    ((CreateRecord h tr zoneID recordType recordName recordValue).1.map
        (fun _ => OpResult.done),
     (CreateRecord h tr zoneID recordType recordName recordValue).2)
  | .bulkCreateRecord zoneID records =>
    ((BulkCreateRecord h tr zoneID records).1.map (fun _ => OpResult.done),
     (BulkCreateRecord h tr zoneID records).2)
  | .bulkUpdateRecord zoneID records =>
    ((BulkUpdateRecord h tr zoneID records).1.map (fun _ => OpResult.done),
     (BulkUpdateRecord h tr zoneID records).2)
  | .createOrUpdateRecord zoneID recordType recordName recordValue =>
    ((CreateOrUpdateRecord h tr dec zoneID recordType recordName recordValue).1.map
        (fun _ => OpResult.done),
     (CreateOrUpdateRecord h tr dec zoneID recordType recordName recordValue).2)
  | .deleteRecord recordID =>
    ((DeleteRecord h tr recordID).1.map (fun _ => OpResult.done),
     (DeleteRecord h tr recordID).2)
  | .exportZoneFile zoneID =>
    ((ExportZoneFile h tr zoneID).1.map OpResult.bytes, (ExportZoneFile h tr zoneID).2)
  | .validateZoneFile fileContents =>
    ((ValidateZoneFile h tr fileContents).1.map (fun _ => OpResult.done),
     (ValidateZoneFile h tr fileContents).2)
  | .importZoneFile zoneID fileContents =>
    ((ImportZoneFile h tr zoneID fileContents).1.map (fun _ => OpResult.done),
     (ImportZoneFile h tr zoneID fileContents).2)
  | .findAllPrimaryServers =>
    ((FindAllPrimaryServers h tr dec).1.map OpResult.pservers,
     (FindAllPrimaryServers h tr dec).2)
  | .createPrimaryServer zoneID address port =>
    ((CreatePrimaryServer h tr zoneID address port).1.map (fun _ => OpResult.done),
     (CreatePrimaryServer h tr zoneID address port).2)
  | .updatePrimaryServer zoneID id address port =>
    ((UpdatePrimaryServer h tr zoneID id address port).1.map (fun _ => OpResult.done),
     (UpdatePrimaryServer h tr zoneID id address port).2)
  | .getPrimaryServer id =>
    ((GetPrimaryServer h tr dec id).1.map OpResult.pserver,
     (GetPrimaryServer h tr dec id).2)
  | .deletePrimaryServer id =>
    ((DeletePrimaryServer h tr dec id).1.map OpResult.pserver,
     (DeletePrimaryServer h tr dec id).2)

/-- The two operations whose non-success error drops the response body
(`DeleteRecord` and `ExportZoneFile` format only the status code). -/
def dropsErrorBody : ClientOp → Bool
  | .deleteRecord _ => true
  | .exportZoneFile _ => true
  | _ => false

/-- The HTTP status each operation treats as success on the round trip that
opens it: 201 (`http.StatusCreated`) for CreateRecord, 200 for every other
operation — including the read step opening the find-based operations. -/
def expectedSuccess : ClientOp → Nat
  | .findAllZones => 200
  | .findZoneID _ => 200
  | .findAllRecordsForZone _ => 200
  | .findRecordsByName _ _ => 200
  | .findRecordById _ _ => 200
  | .updateRecord _ _ _ _ _ => 200
  | .createRecord _ _ _ _ => 201
  | .bulkCreateRecord _ _ => 200
  | .bulkUpdateRecord _ _ => 200
  | .createOrUpdateRecord _ _ _ _ => 200
  | .deleteRecord _ => 200
  | .exportZoneFile _ => 200
  | .validateZoneFile _ => 200
  | .importZoneFile _ _ => 200
  | .findAllPrimaryServers => 200
  | .createPrimaryServer _ _ _ => 200
  | .updatePrimaryServer _ _ _ _ => 200
  | .getPrimaryServer _ => 200
  | .deletePrimaryServer _ => 200

/-! Concrete fixtures used by the closed check theorems. -/

/-- Fixture client configuration. -/
def hW : Hetzner := ⟨"test-key", ""⟩

/-- Transport always answering HTTP 200 with an empty body. -/
def trOk200 : Transport := fun _ => .ok ⟨200, ""⟩

/-- Transport always answering HTTP 500 with body "internal error". -/
def trInternalError : Transport := fun _ => .ok ⟨500, "internal error"⟩

/-- Transport that always fails before any response arrives. -/
def trDown : Transport := fun _ => .fail "connection refused"

/-- A fixture record as decoded from a list-records response. -/
def recW : RecordResponse := ⟨"rid1", "TXT", "www", "old-value", "z1", 300, "", ""⟩

/-- A second fixture record with a different name. -/
def recW2 : RecordResponse := ⟨"rid2", "A", "mail", "5.6.7.8", "z1", 300, "", ""⟩

/-- A fixture record whose id is upper-case. -/
def recUpper : RecordResponse := ⟨"ABC", "A", "www", "1.2.3.4", "z1", 300, "", ""⟩

/-- Decoders whose list decoders yield the given values and whose
primary-server decoders fail. -/
def decLists (zs : List Zone) (rs : List RecordResponse) : Decoders :=
  ⟨fun _ => .ok zs, fun _ => .ok rs,
   fun _ => .error "unexpected end of JSON input",
   fun _ => .error "unexpected end of JSON input"⟩

/-- Decoders that always fail. -/
def noDec : Decoders :=
  ⟨fun _ => .error "unexpected end of JSON input",
   fun _ => .error "unexpected end of JSON input",
   fun _ => .error "unexpected end of JSON input",
   fun _ => .error "unexpected end of JSON input"⟩

/-! Helper lemmas. -/

/-- First-match characterization of `List.find?`: if entry `i` satisfies `p`
and every earlier entry does not, the scan returns entry `i`. -/
theorem find?_eq_get_of_first {α : Type _} (p : α → Bool) (l : List α) (i : Fin l.length)
    (hp : p (l.get i) = true)
    (hmin : ∀ j : Fin l.length, (j : Nat) < (i : Nat) → p (l.get j) = false) :
    l.find? p = some (l.get i) := by
  rw [List.find?_eq_some_iff_getElem]
  refine ⟨hp, i, i.isLt, by simp, ?_⟩
  intro j hj
  have hf := hmin ⟨j, Nat.lt_trans hj i.isLt⟩ hj
  simp only [List.get_eq_getElem] at hf
  simp [hf]

/-- A non-empty string has positive length. -/
theorem string_length_pos_of_ne_empty (s : String) (h : s ≠ "") : 0 < s.length := by
  cases s with
  | mk data =>
    cases data with
    | nil => exact absurd rfl h
    | cons c cs => simp [String.length]

/-! The claims. -/

/-- Claim C10: the zoneID parameter of BulkCreateRecord and BulkUpdateRecord
has no effect: for any two zoneID values and the same record list, outcome
and issued requests coincide, and the single request issued is the
zoneID-independent bulk request, so the result depends only on the record
list and the transport's response. -/
theorem bulk_zoneID_has_no_effect (h : Hetzner) (tr : Transport)
    (zoneIdA zoneIdB : String) (records : List RecordUpdateRequest) :
    BulkCreateRecord h tr zoneIdA records = BulkCreateRecord h tr zoneIdB records ∧
    BulkUpdateRecord h tr zoneIdA records = BulkUpdateRecord h tr zoneIdB records ∧
    (BulkCreateRecord h tr zoneIdA records).2 = [bulkCreateRecordRequest h records] ∧
    (BulkUpdateRecord h tr zoneIdA records).2 = [bulkUpdateRecordRequest h records] :=
  ⟨rfl, rfl, rfl, rfl⟩

/-- Claim C4: with the transport answering `resp`, CreateRecord succeeds
exactly when the status is 201 (in particular a 200 response is an error,
shown verbatim in the last conjunct), while UpdateRecord succeeds exactly
when the status is 200. -/
theorem createRecord_201_updateRecord_200 (h : Hetzner) (resp : HttpResponse)
    (zoneID recordID recordType recordName recordValue body : String) :
    ((CreateRecord h (fun _ => .ok resp) zoneID recordType recordName recordValue).1 = .ok () ↔
      resp.statusCode = 201) ∧
    ((UpdateRecord h (fun _ => .ok resp) zoneID recordID recordType recordName recordValue).1 = .ok () ↔
      resp.statusCode = 200) ∧
    (CreateRecord h (fun _ => .ok ⟨200, body⟩) zoneID recordType recordName recordValue).1 =
      .error (createApiErrorMessage ⟨200, body⟩) := by
  refine ⟨?_, ?_, ?_⟩
  · by_cases hs : resp.statusCode = 201 <;>
      simp [CreateRecord, createRecordResponse, hs]
  · by_cases hs : resp.statusCode = 200 <;>
      simp [UpdateRecord, updateRecordResponse, hs]
  · simp [CreateRecord, createRecordResponse]

/-- Claim C2 counterexample: on HTTP 500 with body "internal error",
DeleteRecord's error carries only the status code; it is not the classified
status-plus-body message, so the body is not surfaced verbatim. -/
theorem deleteRecord_drops_error_body :
    (DeleteRecord hW trInternalError "rid1").1 =
      .error "API request failed with status 500" ∧
    "API request failed with status 500" ≠
      createApiErrorMessage ⟨500, "internal error"⟩ ∧
    ¬ ("internal error".data <:+: "API request failed with status 500".data) := by
  refine ⟨rfl, by decide, by decide⟩

/-- Claim C2 amended: for every operation and every response whose status is
not the one that operation treats as success (201 for CreateRecord, 200 for
every other operation, including the read step opening the find-based
operations), every operation other than DeleteRecord and ExportZoneFile
surfaces exactly the classified error carrying the response's status code
and body verbatim; DeleteRecord and ExportZoneFile surface an error carrying
only the status code, dropping the body. -/
theorem nonSuccess_error_classification (h : Hetzner) (dec : Decoders)
    (resp : HttpResponse) (op : ClientOp)
    (hs : resp.statusCode ≠ expectedSuccess op) :
    (runOp h (fun _ => .ok resp) dec op).1 =
      .error (if dropsErrorBody op
        then "API request failed with status " ++ toString resp.statusCode
        else createApiErrorMessage resp) := by
  cases op <;> simp only [expectedSuccess] at hs <;>
    simp [runOp, dropsErrorBody, FindAllZones, FindZoneID, findZoneIDResult,
      findAllZonesResponse, FindAllRecordsForZone, findAllRecordsForZoneResponse,
      FindRecordsByName, findRecordsByNameResult, FindRecordById, findRecordByIdResult,
      UpdateRecord, updateRecordResponse, CreateRecord, createRecordResponse,
      BulkCreateRecord, bulkCreateRecordResponse, BulkUpdateRecord,
      bulkUpdateRecordResponse, CreateOrUpdateRecord, DeleteRecord,
      deleteRecordResponse, ExportZoneFile, exportZoneFileResponse,
      ValidateZoneFile, validateZoneFileResponse, ImportZoneFile,
      importZoneFileResponse, FindAllPrimaryServers, findAllPrimaryServersResponse,
      CreatePrimaryServer, createPrimaryServerResponse, UpdatePrimaryServer,
      updatePrimaryServerResponse, GetPrimaryServer, getPrimaryServerResponse,
      DeletePrimaryServer, deletePrimaryServerResponse, hs, Except.map]

/-- Concrete check of the amended claim C2 at DeleteRecord on HTTP 500 with
body "internal error". -/
theorem nonSuccess_error_classification_check :
    (runOp hW trInternalError noDec (.deleteRecord "rid1")).1 =
      .error "API request failed with status 500" := by
  have h := nonSuccess_error_classification hW noDec ⟨500, "internal error"⟩
      (.deleteRecord "rid1") (by decide)
  simpa [dropsErrorBody, trInternalError] using h

/-- Claim C1: when the preceding FindRecordsByName returns a non-empty list,
CreateOrUpdateRecord issues exactly one update request, addressed to the
first match's id and carrying the first match's type and name together with
the caller's new value; the caller-supplied type and the matches after the
first do not occur in the outcome. -/
theorem createOrUpdate_updates_first_match (h : Hetzner) (tr : Transport) (dec : Decoders)
    (zoneID recordType recordName recordValue : String)
    (r₀ : RecordResponse) (rest : List RecordResponse) (reqs : List HttpRequest)
    (hfind : FindRecordsByName h tr dec zoneID recordName = (.ok (r₀ :: rest), reqs)) :
    CreateOrUpdateRecord h tr dec zoneID recordType recordName recordValue =
      ((UpdateRecord h tr zoneID r₀.ID r₀.type r₀.Name recordValue).1,
       reqs ++ [updateRecordRequest h zoneID r₀.ID r₀.type r₀.Name recordValue]) := by
  unfold CreateOrUpdateRecord
  rw [hfind]
  rfl

/-- Concrete check of claim C1: one matching record of type TXT and name
"www"; an update to its id with its type and name and the new value is
issued, even though type "A" and name "WWW" were requested. -/
theorem createOrUpdate_updates_first_match_check :
    CreateOrUpdateRecord hW trOk200 (decLists [] [recW]) "z1" "A" "WWW" "new-value" =
      ((UpdateRecord hW trOk200 "z1" "rid1" "TXT" "www" "new-value").1,
       [findAllRecordsForZoneRequest hW "z1",
        updateRecordRequest hW "z1" "rid1" "TXT" "www" "new-value"]) := by
  have h := createOrUpdate_updates_first_match hW trOk200 (decLists [] [recW])
      "z1" "A" "WWW" "new-value" recW [] [findAllRecordsForZoneRequest hW "z1"] rfl
  simpa [recW] using h

/-- Claim C3: when the preceding FindRecordsByName returns the empty list,
CreateOrUpdateRecord issues exactly one create request — a single POST to
`{base}/records` whose body carries the caller-supplied type, name and value
— and no update request. -/
theorem createOrUpdate_creates_when_none (h : Hetzner) (tr : Transport) (dec : Decoders)
    (zoneID recordType recordName recordValue : String) (reqs : List HttpRequest)
    (hfind : FindRecordsByName h tr dec zoneID recordName = (.ok [], reqs)) :
    CreateOrUpdateRecord h tr dec zoneID recordType recordName recordValue =
      ((CreateRecord h tr zoneID recordType recordName recordValue).1,
       reqs ++ [createRecordRequest h zoneID recordType recordName recordValue]) ∧
    (createRecordRequest h zoneID recordType recordName recordValue).method = "POST" ∧
    (createRecordRequest h zoneID recordType recordName recordValue).url =
      apiBaseURL h ++ "/records" ∧
    (createRecordRequest h zoneID recordType recordName recordValue).body =
      some (encodeRecordUpdateRequest ⟨"", zoneID, recordType, recordName, recordValue⟩) := by
  refine ⟨?_, rfl, rfl, rfl⟩
  unfold CreateOrUpdateRecord
  rw [hfind]
  rfl

/-- Concrete check of claim C3: the mock list-records response is empty, so
exactly one POST to `/records` with the new value is issued. -/
theorem createOrUpdate_creates_when_none_check :
    CreateOrUpdateRecord hW trOk200 (decLists [] []) "z1" "TXT" "_acme-challenge" "token" =
      ((CreateRecord hW trOk200 "z1" "TXT" "_acme-challenge" "token").1,
       [findAllRecordsForZoneRequest hW "z1",
        createRecordRequest hW "z1" "TXT" "_acme-challenge" "token"]) := by
  have h := (createOrUpdate_creates_when_none hW trOk200 (decLists [] [])
      "z1" "TXT" "_acme-challenge" "token" [findAllRecordsForZoneRequest hW "z1"] rfl).1
  simpa using h

/-- Claim C8: if the read step of CreateOrUpdateRecord fails, the operation
returns that exact error value unchanged (not wrapped) and issues no create
or update request: its whole trace is the read's single list request. -/
theorem createOrUpdate_propagates_read_error (h : Hetzner) (tr : Transport) (dec : Decoders)
    (zoneID recordType recordName recordValue e : String) (reqs : List HttpRequest)
    (hfind : FindRecordsByName h tr dec zoneID recordName = (.error e, reqs)) :
    CreateOrUpdateRecord h tr dec zoneID recordType recordName recordValue = (.error e, reqs) ∧
    reqs = [findAllRecordsForZoneRequest h zoneID] := by
  constructor
  · unfold CreateOrUpdateRecord
    rw [hfind]
  · have h2 : (FindRecordsByName h tr dec zoneID recordName).2 = reqs := by rw [hfind]
    exact h2.symm

/-- Concrete check of claim C8: the transport fails, and the failure message
wrapped by the read step is returned by CreateOrUpdateRecord verbatim, with
no further request. -/
theorem createOrUpdate_propagates_read_error_check :
    CreateOrUpdateRecord hW trDown noDec "z1" "A" "www" "1.2.3.4" =
      (.error "failed to execute request: connection refused",
       [findAllRecordsForZoneRequest hW "z1"]) :=
  (createOrUpdate_propagates_read_error hW trDown noDec "z1" "A" "www" "1.2.3.4"
    "failed to execute request: connection refused"
    [findAllRecordsForZoneRequest hW "z1"] rfl).1

/-- Claim C5: given the zone list the list-zones call returned, FindZoneID
issues no request beyond that call's single one, returns the id of the first
zone (in server order) whose name matches the query case-insensitively, and
returns the client-side not-found error when no name matches; the matching
relates "example.com" and "EXAMPLE.COM". -/
theorem findZoneID_first_case_insensitive (h : Hetzner) (tr : Transport) (dec : Decoders)
    (domainName : String) (zones : List Zone) (reqs : List HttpRequest)
    (hzones : FindAllZones h tr dec = (.ok zones, reqs)) :
    (FindZoneID h tr dec domainName).2 = reqs ∧
    (∀ i : Fin zones.length, eqFold (zones.get i).Name domainName = true →
      (∀ j : Fin zones.length, (j : Nat) < (i : Nat) →
        eqFold (zones.get j).Name domainName = false) →
      (FindZoneID h tr dec domainName).1 = .ok (zones.get i).ID) ∧
    ((∀ zone ∈ zones, eqFold zone.Name domainName = false) →
      (FindZoneID h tr dec domainName).1 =
        .error ("zone for domain " ++ domainName ++ " not found")) ∧
    eqFold "example.com" "EXAMPLE.COM" = true := by
  have h1 : (FindAllZones h tr dec).1 = .ok zones := by rw [hzones]
  have h2 : (FindAllZones h tr dec).2 = reqs := by rw [hzones]
  refine ⟨h2, ?_, ?_, by decide⟩
  · intro i hp hmin
    have hfind := find?_eq_get_of_first (fun zone => eqFold zone.Name domainName) zones i hp hmin
    simp [FindZoneID, findZoneIDResult, h1, hfind]
  · intro hnone
    have hfind : zones.find? (fun zone => eqFold zone.Name domainName) = none :=
      List.find?_eq_none.mpr (fun zone hz => by simp [hnone zone hz])
    simp [FindZoneID, findZoneIDResult, h1, hfind]

/-- Concrete check of claim C5: the mock list-zones response holds the single
zone id "1" named "example.com"; the query "EXAMPLE.COM" returns "1". -/
theorem findZoneID_first_case_insensitive_check :
    (FindZoneID hW trOk200 (decLists [⟨"1", "example.com"⟩] []) "EXAMPLE.COM").1 = .ok "1" := by
  have h := findZoneID_first_case_insensitive hW trOk200 (decLists [⟨"1", "example.com"⟩] [])
      "EXAMPLE.COM" [⟨"1", "example.com"⟩] [findAllZonesRequest hW] rfl
  exact h.2.1 ⟨0, by decide⟩ (by decide) (fun j hj => absurd hj (Nat.not_lt_zero _))

/-- Claim C6: given the record list the list-records call returned,
FindRecordsByName issues no further request and returns exactly the records
whose name matches the query case-insensitively — all of them, as a sublist
of the server's list, so in the original server order. -/
theorem findRecordsByName_all_case_insensitive (h : Hetzner) (tr : Transport) (dec : Decoders)
    (zoneID recordName : String) (records : List RecordResponse) (reqs : List HttpRequest)
    (hrecs : FindAllRecordsForZone h tr dec zoneID = (.ok records, reqs)) :
    FindRecordsByName h tr dec zoneID recordName =
      (.ok (records.filter (fun record => eqFold record.Name recordName)), reqs) ∧
    (∀ r, r ∈ records.filter (fun record => eqFold record.Name recordName) ↔
      r ∈ records ∧ eqFold r.Name recordName = true) ∧
    List.Sublist (records.filter (fun record => eqFold record.Name recordName)) records := by
  have h1 : (FindAllRecordsForZone h tr dec zoneID).1 = .ok records := by rw [hrecs]
  have h2 : (FindAllRecordsForZone h tr dec zoneID).2 = reqs := by rw [hrecs]
  refine ⟨?_, ?_, List.filter_sublist records⟩
  · simp [FindRecordsByName, findRecordsByNameResult, h1, h2]
  · intro r
    exact List.mem_filter

/-- Concrete check of claim C6: of two records only the one named "www"
matches the query "WWW"; both multiplicity and order are those of the
server's list. -/
theorem findRecordsByName_all_case_insensitive_check :
    (FindRecordsByName hW trOk200 (decLists [] [recW, recW2]) "z1" "WWW").1 = .ok [recW] := by
  have h := (findRecordsByName_all_case_insensitive hW trOk200 (decLists [] [recW, recW2])
      "z1" "WWW" [recW, recW2] [findAllRecordsForZoneRequest hW "z1"] rfl).1
  rw [h]
  rfl

/-- Claim C7: given the record list the list-records call returned,
FindRecordById issues no further request, returns the first record whose id
is exactly equal to the queried id, and returns the client-side "record not
found" error when no id is equal — in particular ids are compared by plain
string equality, never case-folded. -/
theorem findRecordById_exact_first (h : Hetzner) (tr : Transport) (dec : Decoders)
    (zoneID recordId : String) (records : List RecordResponse) (reqs : List HttpRequest)
    (hrecs : FindAllRecordsForZone h tr dec zoneID = (.ok records, reqs)) :
    (FindRecordById h tr dec zoneID recordId).2 = reqs ∧
    (∀ i : Fin records.length, (records.get i).ID = recordId →
      (∀ j : Fin records.length, (j : Nat) < (i : Nat) → (records.get j).ID ≠ recordId) →
      (FindRecordById h tr dec zoneID recordId).1 = .ok (records.get i)) ∧
    ((∀ r ∈ records, r.ID ≠ recordId) →
      (FindRecordById h tr dec zoneID recordId).1 = .error "record not found") := by
  have h1 : (FindAllRecordsForZone h tr dec zoneID).1 = .ok records := by rw [hrecs]
  have h2 : (FindAllRecordsForZone h tr dec zoneID).2 = reqs := by rw [hrecs]
  refine ⟨h2, ?_, ?_⟩
  · intro i hp hmin
    have hfind := find?_eq_get_of_first (fun record => record.ID == recordId) records i
      (by simpa using hp) (fun j hj => by simpa using hmin j hj)
    simp [FindRecordById, findRecordByIdResult, h1, hfind]
  · intro hnone
    have hfind : records.find? (fun record => record.ID == recordId) = none :=
      List.find?_eq_none.mpr (fun r hr => by simp [hnone r hr])
    simp [FindRecordById, findRecordByIdResult, h1, hfind]

/-- Concrete check of claim C7: the only record's id is "ABC"; querying the
id "abc", which differs only in letter case, is not a match and yields the
not-found error. -/
theorem findRecordById_exact_first_check :
    (FindRecordById hW trOk200 (decLists [] [recUpper]) "z1" "abc").1 =
      .error "record not found" := by
  have h := (findRecordById_exact_first hW trOk200 (decLists [] [recUpper])
      "z1" "abc" [recUpper] [findAllRecordsForZoneRequest hW "z1"] rfl).2.2
  exact h (by decide)

/-- Every request CreateOrUpdateRecord issues is its read step's list
request, a create request with the caller's data, or an update request built
from some found record's id, type and name with the new value. -/
theorem createOrUpdate_trace_cases (h : Hetzner) (tr : Transport) (dec : Decoders)
    (zoneID recordType recordName recordValue : String) :
    ∀ req ∈ (CreateOrUpdateRecord h tr dec zoneID recordType recordName recordValue).2,
      req = findAllRecordsForZoneRequest h zoneID ∨
      req = createRecordRequest h zoneID recordType recordName recordValue ∨
      ∃ r : RecordResponse,
        req = updateRecordRequest h zoneID r.ID r.type r.Name recordValue := by
  intro req hreq
  unfold CreateOrUpdateRecord FindRecordsByName at hreq
  rcases hfr : findRecordsByNameResult (FindAllRecordsForZone h tr dec zoneID).1 recordName
    with e | rs
  · rw [hfr] at hreq
    simp [FindAllRecordsForZone] at hreq
    exact Or.inl hreq
  · rw [hfr] at hreq
    cases rs with
    | nil =>
      simp [FindAllRecordsForZone, CreateRecord] at hreq
      rcases hreq with h1 | h1
      · exact Or.inl h1
      · exact Or.inr (Or.inl h1)
    | cons r rest =>
      simp [FindAllRecordsForZone, UpdateRecord] at hreq
      rcases hreq with h1 | h1
      · exact Or.inl h1
      · exact Or.inr (Or.inr ⟨r, h1⟩)

/-- Claim C9: every request any client operation hands to the transport
carries the header Auth-API-Token valued with the configured API key, and
its URL extends the effective base URL; that effective base URL is the
configured one, or the default exactly when the configured one is empty. -/
theorem every_request_authenticated_and_based (h : Hetzner) (tr : Transport)
    (dec : Decoders) (op : ClientOp) :
    (∀ req ∈ (runOp h tr dec op).2,
      ("Auth-API-Token", h.APIKey) ∈ req.headers ∧
      ∃ tail, req.url = apiBaseURL h ++ tail) ∧
    apiBaseURL h =
      if h.APIBaseUrl = "" then "https://dns.hetzner.com/api/v1" else h.APIBaseUrl := by
  constructor
  · intro req hreq
    cases op with
    | findAllZones =>
      simp [runOp, FindAllZones] at hreq
      subst hreq
      exact ⟨List.mem_cons_self _ _, "/zones", rfl⟩
    | findZoneID domainName =>
      simp [runOp, FindZoneID, FindAllZones] at hreq
      subst hreq
      exact ⟨List.mem_cons_self _ _, "/zones", rfl⟩
    | findAllRecordsForZone zoneID =>
      simp [runOp, FindAllRecordsForZone] at hreq
      subst hreq
      exact ⟨List.mem_cons_self _ _, "/records?zone_id=" ++ zoneID,
        by simp [findAllRecordsForZoneRequest, String.append_assoc]⟩
    | findRecordsByName zoneID recordName =>
      simp [runOp, FindRecordsByName, FindAllRecordsForZone] at hreq
      subst hreq
      exact ⟨List.mem_cons_self _ _, "/records?zone_id=" ++ zoneID,
        by simp [findAllRecordsForZoneRequest, String.append_assoc]⟩
    | findRecordById zoneID recordId =>
      simp [runOp, FindRecordById, FindAllRecordsForZone] at hreq
      subst hreq
      exact ⟨List.mem_cons_self _ _, "/records?zone_id=" ++ zoneID,
        by simp [findAllRecordsForZoneRequest, String.append_assoc]⟩
    | updateRecord zoneID recordID recordType recordName recordValue =>
      simp [runOp, UpdateRecord] at hreq
      subst hreq
      exact ⟨List.mem_cons_of_mem _ (List.mem_cons_self _ _), "/records/" ++ recordID,
        by simp [updateRecordRequest, String.append_assoc]⟩
    | createRecord zoneID recordType recordName recordValue =>
      simp [runOp, CreateRecord] at hreq
      subst hreq
      exact ⟨List.mem_cons_of_mem _ (List.mem_cons_self _ _), "/records", rfl⟩
    | bulkCreateRecord zoneID records =>
      simp [runOp, BulkCreateRecord] at hreq
      subst hreq
      exact ⟨List.mem_cons_of_mem _ (List.mem_cons_self _ _), "/records/bulk", rfl⟩
    | bulkUpdateRecord zoneID records =>
      simp [runOp, BulkUpdateRecord] at hreq
      subst hreq
      exact ⟨List.mem_cons_of_mem _ (List.mem_cons_self _ _), "/records/bulk", rfl⟩
    | createOrUpdateRecord zoneID recordType recordName recordValue =>
      simp only [runOp] at hreq
      rcases createOrUpdate_trace_cases h tr dec zoneID recordType recordName recordValue
        req hreq with h1 | h1 | ⟨r, h1⟩
      · subst h1
        exact ⟨List.mem_cons_self _ _, "/records?zone_id=" ++ zoneID,
          by simp [findAllRecordsForZoneRequest, String.append_assoc]⟩
      · subst h1
        exact ⟨List.mem_cons_of_mem _ (List.mem_cons_self _ _), "/records", rfl⟩
      · subst h1
        exact ⟨List.mem_cons_of_mem _ (List.mem_cons_self _ _), "/records/" ++ r.ID,
          by simp [updateRecordRequest, String.append_assoc]⟩
    | deleteRecord recordID =>
      simp [runOp, DeleteRecord] at hreq
      subst hreq
      exact ⟨List.mem_cons_of_mem _ (List.mem_cons_self _ _), "/records/" ++ recordID,
        by simp [deleteRecordRequest, String.append_assoc]⟩
    | exportZoneFile zoneID =>
      simp [runOp, ExportZoneFile] at hreq
      subst hreq
      exact ⟨List.mem_cons_of_mem _ (List.mem_cons_self _ _),
        "/zones/" ++ zoneID ++ "/export",
        by simp [exportZoneFileRequest, String.append_assoc]⟩
    | validateZoneFile fileContents =>
      simp [runOp, ValidateZoneFile] at hreq
      subst hreq
      exact ⟨List.mem_cons_of_mem _ (List.mem_cons_self _ _), "/zones/file/validate", rfl⟩
    | importZoneFile zoneID fileContents =>
      simp [runOp, ImportZoneFile] at hreq
      subst hreq
      exact ⟨List.mem_cons_of_mem _ (List.mem_cons_self _ _),
        "/zones/" ++ zoneID ++ "/import",
        by simp [importZoneFileRequest, String.append_assoc]⟩
    | findAllPrimaryServers =>
      simp [runOp, FindAllPrimaryServers] at hreq
      subst hreq
      exact ⟨List.mem_cons_self _ _, "/primary_servers", rfl⟩
    | createPrimaryServer zoneID address port =>
      simp [runOp, CreatePrimaryServer] at hreq
      subst hreq
      exact ⟨List.mem_cons_of_mem _ (List.mem_cons_self _ _), "/primary_servers", rfl⟩
    | updatePrimaryServer zoneID id address port =>
      simp [runOp, UpdatePrimaryServer] at hreq
      subst hreq
      exact ⟨List.mem_cons_of_mem _ (List.mem_cons_self _ _), "/primary_servers", rfl⟩
    | getPrimaryServer id =>
      simp [runOp, GetPrimaryServer] at hreq
      subst hreq
      exact ⟨List.mem_cons_of_mem _ (List.mem_cons_self _ _), "/primary_servers/" ++ id,
        by simp [getPrimaryServerRequest, String.append_assoc]⟩
    | deletePrimaryServer id =>
      simp [runOp, DeletePrimaryServer] at hreq
      subst hreq
      exact ⟨List.mem_cons_of_mem _ (List.mem_cons_self _ _), "/primary_servers/" ++ id,
        by simp [deletePrimaryServerRequest, String.append_assoc]⟩
  · by_cases hc : h.APIBaseUrl = ""
    · simp [apiBaseURL, hc, String.length]
    · have hlen := string_length_pos_of_ne_empty _ hc
      simp [apiBaseURL, hc, hlen]

/-- Concrete check of claim C9: the fixture client (empty base-URL override)
issues its list-zones request with the token header, and its effective base
URL is the default. -/
theorem every_request_authenticated_and_based_check :
    ("Auth-API-Token", "test-key") ∈ (findAllZonesRequest hW).headers ∧
    apiBaseURL hW = "https://dns.hetzner.com/api/v1" := by
  have h := every_request_authenticated_and_based hW trOk200 noDec .findAllZones
  exact ⟨(h.1 (findAllZonesRequest hW) (List.mem_cons_self _ _)).1, by simpa [hW] using h.2⟩

end HetznerDNS
